import Mathlib

/-!
Shallow embedding of the decision-and-execution core of
crypto-smallcap-trader, together with proofs about the claims of its
specification.

Conventions of the embedding:
* JavaScript `number` values are modelled as exact rationals (`ℚ`);
  integer counts as `ℕ`; `bigint` amounts that the claims constrain to be
  positive as `ℕ` (JS bigint division truncates toward zero, which agrees
  with `Nat` floor division on non-negative operands).
* Template strings that interpolate numeric values (log/diagnostic text
  only) are abstracted: blocker and warning messages become the inductive
  tags `Blocker` / `Warning` naming which message was pushed, and rule
  `reason` strings keep their fixed descriptive part.
* Code that performs network I/O is modelled by passing the environment's
  responses explicitly (`AttemptOutcome` traces for broadcast/confirm).
-/

namespace SmallcapTrader

/-- `DecisionAction` from ai-decision types: the three trading actions. -/
inductive DecisionAction where
  | BUY
  | SELL
  | HOLD
deriving DecidableEq, Repr

/-- `ConfidenceLevel` from ai-decision types. -/
inductive ConfidenceLevel where
  | LOW
  | MEDIUM
  | HIGH
  | VERY_HIGH
deriving DecidableEq, Repr

/-- Trend direction of a social signal: `rising`, `falling` or `flat`. -/
inductive TrendDirection where
  | rising
  | falling
  | flat
deriving DecidableEq, Repr

/-- Decision priority: `NORMAL` or `URGENT`. -/
inductive Priority where
  | NORMAL
  | URGENT
deriving DecidableEq, Repr

/-- `SocialSignal` fields used by the trading rules. -/
structure SocialSignal where
  sentimentScore : ℚ
  trendDirection : TrendDirection
  influencerMentions : ℕ
deriving DecidableEq, Repr

/-- `OnChainData` fields used by the rules and the risk manager. -/
structure OnChainData where
  tokenAddress : String
  liquidityUSD : ℚ
  liquidityChange24h : ℚ
  priceChange24h : ℚ
  volumeChange24h : ℚ
  holderChange24h : ℚ
  top10HoldersPercent : ℚ
  buyCount24h : ℚ
  sellCount24h : ℚ
deriving DecidableEq, Repr

/-- `Position` fields used by the rules and the risk manager. -/
structure Position where
  tokenAddress : String
  tokenSymbol : String
  unrealizedPnLPercent : ℚ
deriving DecidableEq, Repr

/-- `Portfolio` fields used by the rules and the risk manager. -/
structure Portfolio where
  totalValueUSD : ℚ
  availableCashUSD : ℚ
  dailyPnLPercent : ℚ
  maxPositions : ℕ
  positions : List Position
deriving DecidableEq, Repr

/-- `RuleResult` returned by a triggered trading rule (rules.ts). -/
structure RuleResult where
  triggered : Bool
  action : DecisionAction
  confidence : ℚ
  reason : String
  ruleName : String
deriving DecidableEq, Repr

/-- `RuleContext` handed to every trading rule (rules.ts). -/
structure RuleContext where
  socialSignal : SocialSignal
  onChainData : OnChainData
  portfolio : Portfolio
deriving DecidableEq, Repr

/-- A `TradingRule` maps a context to `RuleResult | null`. -/
def TradingRule : Type := RuleContext → Option RuleResult

/-- rules.ts `strongSentimentBuy`: strong positive sentiment, rising trend,
not already pumped too much. -/
def strongSentimentBuy : TradingRule := fun ctx =>
  if ctx.socialSignal.sentimentScore > 0.6 ∧
      ctx.socialSignal.trendDirection = TrendDirection.rising ∧
      ctx.onChainData.priceChange24h < 50 then
    some { triggered := true
           action := DecisionAction.BUY
           confidence := 0.7 + ctx.socialSignal.sentimentScore * 0.2
           reason := "Strong bullish sentiment with rising trend"
           ruleName := "STRONG_SENTIMENT_BUY" }
  else none

/-- rules.ts `influencerMentionBuy`: influencer mentions with volume
confirmation. -/
def influencerMentionBuy : TradingRule := fun ctx =>
  if ctx.socialSignal.influencerMentions ≥ 2 ∧
      ctx.socialSignal.sentimentScore > 0.3 ∧
      ctx.onChainData.volumeChange24h > 50 ∧
      ctx.onChainData.buyCount24h > ctx.onChainData.sellCount24h then
    some { triggered := true
           action := DecisionAction.BUY
           confidence := 0.65 + min ((ctx.socialSignal.influencerMentions : ℚ) * 0.05) 0.2
           reason := "Influencer mentions with volume increase"
           ruleName := "INFLUENCER_MENTION_BUY" }
  else none

/-- rules.ts `volumeBreakoutBuy`: volume spike with positive sentiment. -/
def volumeBreakoutBuy : TradingRule := fun ctx =>
  if ctx.onChainData.volumeChange24h > 200 ∧
      ctx.onChainData.buyCount24h > ctx.onChainData.sellCount24h * 1.5 ∧
      ctx.socialSignal.sentimentScore > 0.2 ∧
      ctx.onChainData.holderChange24h > 0 then
    some { triggered := true
           action := DecisionAction.BUY
           confidence := 0.6
           reason := "Volume breakout with positive buy pressure"
           ruleName := "VOLUME_BREAKOUT_BUY" }
  else none

/-- rules.ts `accumulationBuy`: steady holder increase, low price
volatility. -/
def accumulationBuy : TradingRule := fun ctx =>
  if ctx.onChainData.holderChange24h > 5 ∧
      |ctx.onChainData.priceChange24h| < 10 ∧
      ctx.onChainData.liquidityChange24h > 0 ∧
      ctx.socialSignal.sentimentScore > 0 ∧
      ctx.socialSignal.trendDirection ≠ TrendDirection.falling then
    some { triggered := true
           action := DecisionAction.BUY
           confidence := 0.55
           reason := "Accumulation pattern with stable price"
           ruleName := "ACCUMULATION_BUY" }
  else none

/-- `portfolio.positions.some((p) => p.tokenAddress === onChainData.tokenAddress)`
shared by the SELL rules. -/
def hasPosition (ctx : RuleContext) : Prop :=
  ∃ p ∈ ctx.portfolio.positions, p.tokenAddress = ctx.onChainData.tokenAddress

instance (ctx : RuleContext) : Decidable (hasPosition ctx) := by
  unfold hasPosition
  infer_instance

/-- rules.ts `strongSentimentSell`: strong negative sentiment with falling
trend, only when holding a position. -/
def strongSentimentSell : TradingRule := fun ctx =>
  if hasPosition ctx ∧
      ctx.socialSignal.sentimentScore < -0.5 ∧
      ctx.socialSignal.trendDirection = TrendDirection.falling then
    some { triggered := true
           action := DecisionAction.SELL
           confidence := 0.7 + |ctx.socialSignal.sentimentScore| * 0.2
           reason := "Strong bearish sentiment with falling trend"
           ruleName := "STRONG_SENTIMENT_SELL" }
  else none

/-- rules.ts `liquidityDrainSell`: liquidity drain is a major red flag. -/
def liquidityDrainSell : TradingRule := fun ctx =>
  if hasPosition ctx ∧ ctx.onChainData.liquidityChange24h < -30 then
    some { triggered := true
           action := DecisionAction.SELL
           confidence := 0.9
           reason := "Liquidity drain detected"
           ruleName := "LIQUIDITY_DRAIN_SELL" }
  else none

/-- rules.ts `whaleDumpSell`: high-concentration holders selling. -/
def whaleDumpSell : TradingRule := fun ctx =>
  if hasPosition ctx ∧
      ctx.onChainData.sellCount24h > ctx.onChainData.buyCount24h * 2 ∧
      ctx.onChainData.priceChange24h < -20 ∧
      ctx.onChainData.volumeChange24h > 100 then
    some { triggered := true
           action := DecisionAction.SELL
           confidence := 0.85
           reason := "Potential whale dump"
           ruleName := "WHALE_DUMP_SELL" }
  else none

/-- rules.ts `holderExodusSell`: holders leaving. -/
def holderExodusSell : TradingRule := fun ctx =>
  if hasPosition ctx ∧ ctx.onChainData.holderChange24h < -10 then
    some { triggered := true
           action := DecisionAction.SELL
           confidence := 0.75
           reason := "Holder exodus"
           ruleName := "HOLDER_EXODUS_SELL" }
  else none

/-- rules.ts `uncertainHold`: unclear conditions, wait. -/
def uncertainHold : TradingRule := fun ctx =>
  if |ctx.socialSignal.sentimentScore| < 0.2 ∧
      |ctx.onChainData.priceChange24h| < 5 ∧
      |ctx.onChainData.volumeChange24h| < 50 then
    some { triggered := true
           action := DecisionAction.HOLD
           confidence := 0.6
           reason := "Market conditions unclear - no strong signals"
           ruleName := "UNCERTAIN_HOLD" }
  else none

/-- rules.ts `conflictingSignalsHold`: sentiment and price disagree. -/
def conflictingSignalsHold : TradingRule := fun ctx =>
  if (ctx.socialSignal.sentimentScore > 0.3 ∧ ctx.onChainData.priceChange24h < -10) ∨
      (ctx.socialSignal.sentimentScore < -0.3 ∧ ctx.onChainData.priceChange24h > 10) then
    some { triggered := true
           action := DecisionAction.HOLD
           confidence := 0.5
           reason := "Conflicting signals between sentiment and price action"
           ruleName := "CONFLICTING_SIGNALS_HOLD" }
  else none

/-- rules.ts `ALL_RULES`, in the source's registration order. -/
def ALL_RULES : List TradingRule :=
  [liquidityDrainSell, whaleDumpSell, holderExodusSell, strongSentimentSell,
   strongSentimentBuy, influencerMentionBuy, volumeBreakoutBuy, accumulationBuy,
   conflictingSignalsHold, uncertainHold]

/-- `RulesEngineResult` returned by `evaluateRules`. -/
structure RulesEngineResult where
  suggestedAction : DecisionAction
  confidence : ℚ
  confidenceLevel : ConfidenceLevel
  triggeredRules : List RuleResult
  reasoning : List String
deriving DecidableEq, Repr

/-- The collection loop of `evaluateRules`: run every rule, keep results
that are non-null and have `triggered` set. -/
def collectTriggered (ctx : RuleContext) : List RuleResult :=
  ALL_RULES.filterMap fun rule =>
    match rule ctx with
    | some r => if r.triggered then some r else none
    | none => none

/-- The confidence-level thresholds of `evaluateRules`. -/
def confidenceLevelOf (c : ℚ) : ConfidenceLevel :=
  if c ≥ 0.85 then ConfidenceLevel.VERY_HIGH
  else if c ≥ 0.7 then ConfidenceLevel.HIGH
  else if c ≥ 0.5 then ConfidenceLevel.MEDIUM
  else ConfidenceLevel.LOW

/-- The action-selection if-chain of `evaluateRules`: SELL (safety) wins,
else BUY when no HOLD triggered, else HOLD, else fallback to BUY. -/
def selectGroup (t : List RuleResult) : List RuleResult × DecisionAction :=
  let sellRules := t.filter fun r => r.action = DecisionAction.SELL
  let buyRules := t.filter fun r => r.action = DecisionAction.BUY
  let holdRules := t.filter fun r => r.action = DecisionAction.HOLD
  if sellRules.length > 0 then (sellRules, DecisionAction.SELL)
  else if buyRules.length > 0 ∧ holdRules.length = 0 then (buyRules, DecisionAction.BUY)
  else if holdRules.length > 0 then (holdRules, DecisionAction.HOLD)
  else (buyRules, DecisionAction.BUY)

/-- rules.ts `evaluateRules`: collect triggered rules, pick the winning
action group, average its confidences and classify the result. -/
def evaluateRules (ctx : RuleContext) : RulesEngineResult :=
  let triggeredRules := collectTriggered ctx
  if triggeredRules.isEmpty then
    { suggestedAction := DecisionAction.HOLD
      confidence := 0.3
      confidenceLevel := ConfidenceLevel.LOW
      triggeredRules := []
      reasoning := ["No trading rules triggered - defaulting to HOLD"] }
  else
    let sel := selectGroup triggeredRules
    let avgConfidence := (sel.1.map RuleResult.confidence).sum / (sel.1.length : ℚ)
    { suggestedAction := sel.2
      confidence := avgConfidence
      confidenceLevel := confidenceLevelOf avgConfidence
      triggeredRules := triggeredRules
      reasoning := sel.1.map RuleResult.reason }

/-! ## Risk manager (src/packages/ai-decision/src/risk-manager.ts) -/

/-- `RiskConfig` fields used by RiskManager (its zod schema lives in the
missing types.ts; the field names are those the risk manager reads). -/
structure RiskConfig where
  dailyLossLimitPercent : ℚ
  minLiquidityUSD : ℚ
  maxTotalExposurePercent : ℚ
  maxPositionSizePercent : ℚ
  stopLossPercent : ℚ
  takeProfitPercent : ℚ
deriving DecidableEq, Repr

/-- Modelled from the spec: `RiskConfigSchema.parse` (types.ts, not under
src/) validates thresholds at startup; invalid thresholds such as a
non-positive percent or stop-loss ≥ take-profit are a ConfigurationError
rejected at startup (spec section 7e), so a running system's config has
positive stop-loss strictly below take-profit. -/
def RiskConfig.valid (cfg : RiskConfig) : Prop :=
  0 < cfg.stopLossPercent ∧ cfg.stopLossPercent < cfg.takeProfitPercent

/-- Blocker messages pushed by `assessRisk` (string interpolation
abstracted to a tag naming the message). -/
inductive Blocker where
  | dailyLossLimitReached
  | insufficientLiquidity
  | extremeHolderConcentration
  | maxPositionsReached
  | maxExposureReached
  | noPositionToSell
deriving DecidableEq, Repr

/-- Warning messages pushed by `assessRisk` (string interpolation
abstracted to a tag naming the message). -/
inductive Warning where
  | highHolderConcentration
  | unfavorableBuySellRatio
  | significantPriceIncrease
  | abnormalVolumeSpike
  | positionSizeReduced
deriving DecidableEq, Repr

/-- `RiskAssessment` returned by `assessRisk`. -/
structure RiskAssessment where
  canTrade : Bool
  maxPositionSizeUSD : ℚ
  maxPositionSizePercent : ℚ
  suggestedStopLoss : ℚ
  suggestedTakeProfit : ℚ
  riskScore : ℚ
  warnings : List Warning
  blockers : List Blocker
deriving DecidableEq, Repr

/-- risk-manager.ts `assessRisk`: collect blockers, warnings and the
additive risk score in the source's order, size the max position and
clamp the risk score. -/
def assessRisk (cfg : RiskConfig) (action : DecisionAction)
    (onChainData : OnChainData) (portfolio : Portfolio) : RiskAssessment :=
  let lowLiquidity := onChainData.liquidityUSD < cfg.minLiquidityUSD
  let existingPosition :=
    portfolio.positions.find? fun p => p.tokenAddress = onChainData.tokenAddress
  let currentExposure :=
    (portfolio.totalValueUSD - portfolio.availableCashUSD) / portfolio.totalValueUSD * 100
  let ratioBuySell :=
    if onChainData.sellCount24h > 0 then
      onChainData.buyCount24h / onChainData.sellCount24h
    else onChainData.buyCount24h
  let blockers :=
    (if portfolio.dailyPnLPercent ≤ -cfg.dailyLossLimitPercent
      then [Blocker.dailyLossLimitReached] else []) ++
    (if lowLiquidity then [Blocker.insufficientLiquidity] else []) ++
    (if onChainData.top10HoldersPercent > 80
      then [Blocker.extremeHolderConcentration] else []) ++
    (if action = DecisionAction.BUY then
      (if portfolio.positions.length ≥ portfolio.maxPositions ∧ existingPosition.isNone
        then [Blocker.maxPositionsReached] else []) ++
      (if currentExposure ≥ cfg.maxTotalExposurePercent
        then [Blocker.maxExposureReached] else [])
     else []) ++
    (if action = DecisionAction.SELL ∧ existingPosition.isNone
      then [Blocker.noPositionToSell] else [])
  let riskScore : ℚ :=
    (if lowLiquidity then 0.3 else 0) +
    (if onChainData.top10HoldersPercent > 80 then 0.3
      else if onChainData.top10HoldersPercent > 60 then 0.15 else 0) +
    (if action = DecisionAction.BUY then
      (if ratioBuySell < 0.5 then 0.1 else 0) +
      (if onChainData.priceChange24h > 100 then 0.2 else 0) +
      (if onChainData.volumeChange24h > 500 then 0.1 else 0)
     else 0)
  let maxByPortfolioPercent := portfolio.totalValueUSD * cfg.maxPositionSizePercent / 100
  let maxByCash := portfolio.availableCashUSD
  let maxByLiquidity := onChainData.liquidityUSD * 0.02
  let maxPositionSizeUSD0 := min (min maxByPortfolioPercent maxByCash) maxByLiquidity
  let maxPositionSizeUSD :=
    if riskScore > 0.3 then maxPositionSizeUSD0 * 0.5 else maxPositionSizeUSD0
  let warnings :=
    (if onChainData.top10HoldersPercent > 80 then []
      else if onChainData.top10HoldersPercent > 60
        then [Warning.highHolderConcentration] else []) ++
    (if action = DecisionAction.BUY then
      (if ratioBuySell < 0.5 then [Warning.unfavorableBuySellRatio] else []) ++
      (if onChainData.priceChange24h > 100 then [Warning.significantPriceIncrease] else []) ++
      (if onChainData.volumeChange24h > 500 then [Warning.abnormalVolumeSpike] else [])
     else []) ++
    (if riskScore > 0.3 then [Warning.positionSizeReduced] else [])
  let maxPositionSizePercent := maxPositionSizeUSD / portfolio.totalValueUSD * 100
  let volatilityMultiplier := min 2 (1 + |onChainData.priceChange24h| / 100)
  { canTrade := blockers.length == 0
    maxPositionSizeUSD := maxPositionSizeUSD
    maxPositionSizePercent := maxPositionSizePercent
    suggestedStopLoss := cfg.stopLossPercent * volatilityMultiplier
    suggestedTakeProfit := cfg.takeProfitPercent
    riskScore := min 1 riskScore
    warnings := warnings
    blockers := blockers }

/-- risk-manager.ts `calculatePositionSize`: half-Kelly sizing capped by
the assessment's and the configured position-size percents. -/
def calculatePositionSize (cfg : RiskConfig) (confidence : ℚ)
    (portfolio : Portfolio) (riskAssessment : RiskAssessment) : ℚ × ℚ :=
  let winProbability := 0.5 + confidence * 0.3
  let avgWin := cfg.takeProfitPercent / 100
  let avgLoss := cfg.stopLossPercent / 100
  let b := avgWin / avgLoss
  let kellyFraction := max 0 ((b * winProbability - (1 - winProbability)) / b)
  let halfKelly := kellyFraction / 2
  let maxPercent :=
    min (min (halfKelly * 100) riskAssessment.maxPositionSizePercent)
      cfg.maxPositionSizePercent
  let percent := max 0 maxPercent
  let amountUSD := portfolio.totalValueUSD * percent / 100
  (percent, amountUSD)

/-- `Decision` as produced by `checkExitConditions` (reasoning strings keep
their fixed descriptive part; interpolated numbers abstracted). -/
structure Decision where
  tokenAddress : String
  tokenSymbol : String
  action : DecisionAction
  confidence : ConfidenceLevel
  confidenceScore : ℚ
  suggestedPositionPercent : ℚ
  reasoning : List String
  rulesTriggers : List String
  timestamp : ℤ
  priority : Priority
deriving DecidableEq, Repr

/-- The loop body of `checkExitConditions` for one position: the pushed
exit decision, or none when neither bound is met. -/
def exitDecisionFor (cfg : RiskConfig) (now : ℤ) (position : Position) :
    Option Decision :=
  let shouldExit :=
    position.unrealizedPnLPercent ≤ -cfg.stopLossPercent ∨
    position.unrealizedPnLPercent ≥ cfg.takeProfitPercent
  if shouldExit then
    let isStopLoss := position.unrealizedPnLPercent < 0
    some { tokenAddress := position.tokenAddress
           tokenSymbol := position.tokenSymbol
           action := DecisionAction.SELL
           confidence := ConfidenceLevel.VERY_HIGH
           confidenceScore := 1
           suggestedPositionPercent := 100
           reasoning := [if isStopLoss then "Stop loss triggered" else "Take profit triggered"]
           rulesTriggers := [if isStopLoss then "STOP_LOSS" else "TAKE_PROFIT"]
           timestamp := now
           priority := Priority.URGENT }
  else none

/-- risk-manager.ts `checkExitConditions`: one exit decision pushed per
position whose unrealized P&L hits the stop-loss or take-profit bound. -/
def checkExitConditions (cfg : RiskConfig) (now : ℤ) (portfolio : Portfolio) :
    List Decision :=
  portfolio.positions.filterMap (exitDecisionFor cfg now)

/-! ## Execution engine (src/packages/trading-engine/src/dex/jupiter.ts) -/

/-- `TradingConfig` for JupiterClient. -/
structure TradingConfig where
  rpcEndpoint : String
  defaultSlippageBps : ℕ
  maxSlippageBps : ℕ
  priorityFeeLamports : ℕ
  maxRetries : ℕ
  retryDelayMs : ℕ
  confirmationTimeout : ℕ
deriving DecidableEq, Repr

/-- jupiter.ts `DEFAULT_CONFIG`. -/
def DEFAULT_CONFIG : TradingConfig :=
  { rpcEndpoint := "https://api.mainnet-beta.solana.com"
    defaultSlippageBps := 50
    maxSlippageBps := 500
    priorityFeeLamports := 10000
    maxRetries := 3
    retryDelayMs := 1000
    confirmationTimeout := 60000 }

/-- The slippage computed by `getQuote` and sent to `jupiter.quoteGet`:
`Math.min(slippageBps || this.config.defaultSlippageBps, this.config.maxSlippageBps)`.
`params.slippageBps` is optional; the JS `||` also sends a provided value
of `0` to the default (0 is falsy). -/
def effectiveSlippage (cfg : TradingConfig) (slippageBps : Option ℕ) : ℕ :=
  min
    (match slippageBps with
     | some s => if s = 0 then cfg.defaultSlippageBps else s
     | none => cfg.defaultSlippageBps)
    cfg.maxSlippageBps

/-- The slippage `getQuote` would send under the spec claim's reading
("params.slippageBps if provided else the configured default", capped by
the configured maximum). Stated from the spec's words for comparison with
`effectiveSlippage`, which is translated from the source. -/
def effectiveSlippageSpec (cfg : TradingConfig) (slippageBps : Option ℕ) : ℕ :=
  min (slippageBps.getD cfg.defaultSlippageBps) cfg.maxSlippageBps

/-- Environment response to one broadcast+confirm attempt inside
`sendAndConfirmTransaction`:
* `success`: `sendRawTransaction` returned a signature and
  `confirmTransaction` reported no error;
* `broadcastFailure`: the send/confirm network call itself threw
  (transient network or broadcast error);
* `onChainRejection`: confirmation returned with `confirmation.value.err`
  set (an on-chain program-level rejection), which the source turns into
  a thrown `Transaction failed: ...` error. -/
inductive AttemptOutcome where
  | success (signature : String)
  | broadcastFailure (msg : String)
  | onChainRejection (msg : String)
deriving DecidableEq, Repr

/-- Whether an attempt outcome is a failure (either kind). -/
def AttemptOutcome.isFailure : AttemptOutcome → Prop
  | success _ => False
  | broadcastFailure _ => True
  | onChainRejection _ => True

instance (o : AttemptOutcome) : Decidable o.isFailure := by
  cases o <;> unfold AttemptOutcome.isFailure <;> infer_instance

/-- The error message the catch block records for a failed attempt: the
thrown message itself for a network failure, and the
`Transaction failed: ...` message built from `confirmation.value.err` for
an on-chain rejection. -/
def failMsg : AttemptOutcome → String
  | AttemptOutcome.success _ => ""
  | AttemptOutcome.broadcastFailure m => m
  | AttemptOutcome.onChainRejection m => "Transaction failed: " ++ m

/-- Result of the retry loop: how many attempts ran, the backoff delays
awaited between attempts, and the returned signature or the thrown last
error. -/
structure SendResult where
  attemptsUsed : ℕ
  delaysMs : List ℕ
  outcome : Except String String
deriving Repr

/-- One step of the `for (let attempt = 1; attempt <= maxRetries; ...)`
loop of `sendAndConfirmTransaction`. `remaining` counts the loop
iterations still allowed (`maxRetries + 1 - attempt`); on failure the
last error is recorded and, when `attempt < maxRetries`, a delay of
`retryDelayMs * attempt` is awaited before the next attempt. -/
def sendGo (retryDelayMs maxRetries : ℕ) (outcomes : ℕ → AttemptOutcome) :
    (attempt : ℕ) → (remaining : ℕ) → (lastError : Option String) → SendResult
  | attempt, 0, lastError =>
      { attemptsUsed := attempt - 1
        delaysMs := []
        outcome := Except.error (lastError.getD "Transaction failed after all retries") }
  | attempt, remaining + 1, _lastError =>
      match outcomes attempt with
      | AttemptOutcome.success sig =>
          { attemptsUsed := attempt, delaysMs := [], outcome := Except.ok sig }
      | AttemptOutcome.broadcastFailure _ =>
          let rest := sendGo retryDelayMs maxRetries outcomes (attempt + 1) remaining
            (some (failMsg (outcomes attempt)))
          { attemptsUsed := rest.attemptsUsed
            delaysMs := (if attempt < maxRetries then [retryDelayMs * attempt] else []) ++
              rest.delaysMs
            outcome := rest.outcome }
      | AttemptOutcome.onChainRejection _ =>
          let rest := sendGo retryDelayMs maxRetries outcomes (attempt + 1) remaining
            (some (failMsg (outcomes attempt)))
          { attemptsUsed := rest.attemptsUsed
            delaysMs := (if attempt < maxRetries then [retryDelayMs * attempt] else []) ++
              rest.delaysMs
            outcome := rest.outcome }

/-- jupiter.ts `sendAndConfirmTransaction`: attempts run from 1 up to
`maxRetries`; the environment's response to attempt `n` is `outcomes n`. -/
def sendAndConfirmTransaction (cfg : TradingConfig)
    (outcomes : ℕ → AttemptOutcome) : SendResult :=
  sendGo cfg.retryDelayMs cfg.maxRetries outcomes 1 cfg.maxRetries none

/-- `SwapResult` fields relevant to the execution claims. -/
structure SwapResult where
  success : Bool
  signature : Option String
  error : Option String
deriving DecidableEq, Repr

/-- jupiter.ts `executeSwap`, with the quote/build/sign steps already
completed (their failures occur before any broadcast attempt; the claims
here concern the broadcast+confirm loop): the try/catch wrapper turns the
signature into a success result and a thrown error into exactly one
failure result carrying the error message. -/
def executeSwap (cfg : TradingConfig) (outcomes : ℕ → AttemptOutcome) :
    SwapResult :=
  match (sendAndConfirmTransaction cfg outcomes).outcome with
  | Except.ok sig => { success := true, signature := some sig, error := none }
  | Except.error e => { success := false, signature := none, error := some e }

/-! ## Raydium AMM math (src/packages/trading-engine/src/dex/raydium.ts) -/

/-- Result of `calculatePriceImpact`. -/
structure PriceImpactResult where
  amountOut : ℕ
  priceImpact : ℚ
deriving DecidableEq, Repr

/-- raydium.ts `calculatePriceImpact`: constant-product output amount with
the 0.25% Raydium fee in exact integer (bigint) arithmetic, and the
relative rate degradation clamped at 0. The final floating-point division
is modelled in exact rationals. -/
def calculatePriceImpact (amountIn reserveIn reserveOut : ℕ) : PriceImpactResult :=
  let FEE_NUMERATOR := 9975
  let FEE_DENOMINATOR := 10000
  let amountInWithFee := amountIn * FEE_NUMERATOR
  let numerator := amountInWithFee * reserveOut
  let denominator := reserveIn * FEE_DENOMINATOR + amountInWithFee
  let amountOut := numerator / denominator
  let idealRate := reserveOut * 10000 / reserveIn
  let actualRate := amountOut * 10000 / amountIn
  let priceImpact := ((idealRate : ℚ) - (actualRate : ℚ)) / (idealRate : ℚ) * 100
  { amountOut := amountOut
    priceImpact := max 0 priceImpact }

/-! ## Concrete fixtures used to instantiate theorems -/

/-- A context holding a position in token `T` whose liquidity dropped 40%:
`liquidityDrainSell` (SELL, confidence 0.9) and `uncertainHold` trigger. -/
def ctxLiquidityDrain : RuleContext :=
  { socialSignal :=
      { sentimentScore := 0, trendDirection := TrendDirection.flat, influencerMentions := 0 }
    onChainData :=
      { tokenAddress := "T", liquidityUSD := 100000, liquidityChange24h := -40
        priceChange24h := 0, volumeChange24h := 0, holderChange24h := 0
        top10HoldersPercent := 0, buyCount24h := 0, sellCount24h := 0 }
    portfolio :=
      { totalValueUSD := 1000, availableCashUSD := 500, dailyPnLPercent := 0
        maxPositions := 5
        positions := [{ tokenAddress := "T", tokenSymbol := "TT", unrealizedPnLPercent := 0 }] } }

/-- A risk configuration with the spec's scenario thresholds
(stop-loss 10%, take-profit 20%). -/
def cfgRisk : RiskConfig :=
  { dailyLossLimitPercent := 10
    minLiquidityUSD := 10000
    maxTotalExposurePercent := 50
    maxPositionSizePercent := 10
    stopLossPercent := 10
    takeProfitPercent := 20 }

/-- A position down 12%, past the 10% stop-loss bound. -/
def positionStopLoss : Position :=
  { tokenAddress := "X", tokenSymbol := "XX", unrealizedPnLPercent := -12 }

/-- A portfolio at its position limit, holding only `positionStopLoss`. -/
def portfolioOnePos : Portfolio :=
  { totalValueUSD := 1000, availableCashUSD := 500, dailyPnLPercent := 0
    maxPositions := 1, positions := [positionStopLoss] }

/-- On-chain data for a token the portfolio does not hold, with liquidity
below the configured 10000 USD floor. -/
def onChainLowLiq : OnChainData :=
  { tokenAddress := "T", liquidityUSD := 5000, liquidityChange24h := 0
    priceChange24h := 0, volumeChange24h := 0, holderChange24h := 0
    top10HoldersPercent := 0, buyCount24h := 10, sellCount24h := 10 }

/-- A fixed risk assessment used to instantiate the sizing theorem. -/
def assessmentFix : RiskAssessment :=
  { canTrade := true, maxPositionSizeUSD := 100, maxPositionSizePercent := 50
    suggestedStopLoss := 10, suggestedTakeProfit := 20, riskScore := 0
    warnings := [], blockers := [] }

/-- Attempt trace: the chain rejects the transaction program-side on
attempt 1, then attempt 2 confirms. -/
def traceRejectionThenSuccess : ℕ → AttemptOutcome := fun n =>
  if n = 1 then AttemptOutcome.onChainRejection "InstructionError" else
    AttemptOutcome.success "sig2"

/-- Attempt trace: transient broadcast failures on attempts 1 and 2, then
success on attempt 3. -/
def traceTwoFailsThenSuccess : ℕ → AttemptOutcome := fun n =>
  if n = 3 then AttemptOutcome.success "sig3" else
    AttemptOutcome.broadcastFailure "network error"

end SmallcapTrader

namespace SmallcapTrader

/-! ## Rule-engine lemmas -/

theorem selectGroup_fst_eq_filter (t : List RuleResult) :
    (selectGroup t).1 = t.filter fun r => r.action = (selectGroup t).2 := by
  unfold selectGroup
  dsimp only
  split_ifs <;> rfl

theorem selectGroup_snd_of_sell (t : List RuleResult)
    (h : 0 < (t.filter fun r => r.action = DecisionAction.SELL).length) :
    (selectGroup t).2 = DecisionAction.SELL := by
  unfold selectGroup
  simp only [h, if_pos]

theorem confidenceLevelOf_spec (c : ℚ) :
    (confidenceLevelOf c = ConfidenceLevel.VERY_HIGH ↔ 0.85 ≤ c) ∧
    (confidenceLevelOf c = ConfidenceLevel.HIGH ↔ 0.7 ≤ c ∧ c < 0.85) ∧
    (confidenceLevelOf c = ConfidenceLevel.MEDIUM ↔ 0.5 ≤ c ∧ c < 0.7) ∧
    (confidenceLevelOf c = ConfidenceLevel.LOW ↔ c < 0.5) := by
  unfold confidenceLevelOf
  split_ifs with h1 h2 h3 <;>
    refine ⟨?_, ?_, ?_, ?_⟩ <;> simp <;> push_neg at * <;>
    first
      | linarith
      | exact ⟨by linarith, by linarith⟩
      | (rintro ⟨hx, hy⟩; linarith)
      | (intro hx; linarith)

theorem evaluateRules_of_triggered (ctx : RuleContext)
    (h : collectTriggered ctx ≠ []) :
    evaluateRules ctx =
      { suggestedAction := (selectGroup (collectTriggered ctx)).2
        confidence := ((selectGroup (collectTriggered ctx)).1.map RuleResult.confidence).sum /
          ((selectGroup (collectTriggered ctx)).1.length : ℚ)
        confidenceLevel := confidenceLevelOf
          (((selectGroup (collectTriggered ctx)).1.map RuleResult.confidence).sum /
            ((selectGroup (collectTriggered ctx)).1.length : ℚ))
        triggeredRules := collectTriggered ctx
        reasoning := (selectGroup (collectTriggered ctx)).1.map RuleResult.reason } := by
  unfold evaluateRules
  simp only [List.isEmpty_eq_false_iff_exists_mem] at *
  rw [if_neg]
  simp only [List.isEmpty_iff]
  exact h

/-- Claim C1: for every rule-evaluation context in which at least one
triggered rule has action SELL, `evaluateRules` returns a result whose
`suggestedAction` is SELL, regardless of how many BUY or HOLD rules
triggered and regardless of their confidences. -/
theorem evaluateRules_sell_precedence (ctx : RuleContext)
    (h : ∃ r ∈ collectTriggered ctx, r.action = DecisionAction.SELL) :
    (evaluateRules ctx).suggestedAction = DecisionAction.SELL := by
  obtain ⟨r, hr, hact⟩ := h
  have hne : collectTriggered ctx ≠ [] := List.ne_nil_of_mem hr
  have hmemf : r ∈ (collectTriggered ctx).filter fun q => q.action = DecisionAction.SELL :=
    List.mem_filter.mpr ⟨hr, by simp [hact]⟩
  have hlen : 0 < ((collectTriggered ctx).filter fun q => q.action = DecisionAction.SELL).length :=
    List.length_pos.mpr (List.ne_nil_of_mem hmemf)
  rw [evaluateRules_of_triggered ctx hne]
  exact selectGroup_snd_of_sell _ hlen

theorem evaluateRules_sell_precedence_witness :
    (∃ r ∈ collectTriggered ctxLiquidityDrain, r.action = DecisionAction.SELL) ∧
    (evaluateRules ctxLiquidityDrain).suggestedAction = DecisionAction.SELL :=
  ⟨by decide, evaluateRules_sell_precedence ctxLiquidityDrain (by decide)⟩

/-- Claim C8: whenever at least one rule triggers, the decision's
confidence is the arithmetic mean of the confidences of the triggered
rules in the winning action group, and the confidence level is VERY_HIGH
iff that mean is at least 0.85, HIGH iff it lies in [0.70, 0.85), MEDIUM
iff it lies in [0.50, 0.70), and LOW otherwise. -/
theorem evaluateRules_confidence_spec (ctx : RuleContext)
    (h : collectTriggered ctx ≠ []) :
    ((evaluateRules ctx).confidence =
      (((collectTriggered ctx).filter fun r =>
          r.action = (evaluateRules ctx).suggestedAction).map RuleResult.confidence).sum /
        ((((collectTriggered ctx).filter fun r =>
          r.action = (evaluateRules ctx).suggestedAction).length : ℕ) : ℚ)) ∧
    ((evaluateRules ctx).confidenceLevel = ConfidenceLevel.VERY_HIGH ↔
      0.85 ≤ (evaluateRules ctx).confidence) ∧
    ((evaluateRules ctx).confidenceLevel = ConfidenceLevel.HIGH ↔
      0.7 ≤ (evaluateRules ctx).confidence ∧ (evaluateRules ctx).confidence < 0.85) ∧
    ((evaluateRules ctx).confidenceLevel = ConfidenceLevel.MEDIUM ↔
      0.5 ≤ (evaluateRules ctx).confidence ∧ (evaluateRules ctx).confidence < 0.7) ∧
    ((evaluateRules ctx).confidenceLevel = ConfidenceLevel.LOW ↔
      (evaluateRules ctx).confidence < 0.5) := by
  rw [evaluateRules_of_triggered ctx h]
  dsimp only
  refine ⟨?_, (confidenceLevelOf_spec _).1, (confidenceLevelOf_spec _).2.1,
    (confidenceLevelOf_spec _).2.2.1, (confidenceLevelOf_spec _).2.2.2⟩
  rw [← selectGroup_fst_eq_filter]

theorem evaluateRules_confidence_spec_witness :
    collectTriggered ctxLiquidityDrain ≠ [] ∧
    ((evaluateRules ctxLiquidityDrain).confidenceLevel = ConfidenceLevel.VERY_HIGH ↔
      0.85 ≤ (evaluateRules ctxLiquidityDrain).confidence) :=
  ⟨by decide, (evaluateRules_confidence_spec ctxLiquidityDrain (by decide)).2.1⟩

/-! ## Risk-manager lemmas -/

theorem length_filterMap_eq_length_filter {α β : Type} (f : α → Option β) (p : α → Bool)
    (h : ∀ a, (f a).isSome = p a) (l : List α) :
    (l.filterMap f).length = (l.filter p).length := by
  induction l with
  | nil => rfl
  | cons a l ih =>
    rcases hfa : f a with _ | b
    · have hp : p a = false := by rw [← h a, hfa]; rfl
      simp [List.filterMap_cons, List.filter_cons, hfa, hp, ih]
    · have hp : p a = true := by rw [← h a, hfa]; rfl
      simp [List.filterMap_cons, List.filter_cons, hfa, hp, ih]

theorem exitDecisionFor_isSome (cfg : RiskConfig) (now : ℤ) (position : Position) :
    (exitDecisionFor cfg now position).isSome =
      decide (position.unrealizedPnLPercent ≤ -cfg.stopLossPercent ∨
        position.unrealizedPnLPercent ≥ cfg.takeProfitPercent) := by
  unfold exitDecisionFor
  dsimp only
  split_ifs with hc <;> simp [hc]

/-- Claim C4: with a validated configuration, every position whose
unrealized P&L hits the stop-loss or take-profit bound yields exactly one
SELL decision with URGENT priority, VERY_HIGH confidence, 100% of the
position, tagged STOP_LOSS resp. TAKE_PROFIT; positions meeting neither
bound produce no decision. -/
theorem checkExitConditions_spec (cfg : RiskConfig) (now : ℤ) (portfolio : Portfolio)
    (position : Position) (hv : cfg.valid) (hmem : position ∈ portfolio.positions) :
    ((position.unrealizedPnLPercent ≤ -cfg.stopLossPercent ∨
        position.unrealizedPnLPercent ≥ cfg.takeProfitPercent) →
      ∃ d, exitDecisionFor cfg now position = some d ∧
        d.tokenAddress = position.tokenAddress ∧
        d.action = DecisionAction.SELL ∧
        d.priority = Priority.URGENT ∧
        d.confidence = ConfidenceLevel.VERY_HIGH ∧
        d.suggestedPositionPercent = 100 ∧
        (position.unrealizedPnLPercent ≤ -cfg.stopLossPercent →
          d.rulesTriggers = ["STOP_LOSS"]) ∧
        (position.unrealizedPnLPercent ≥ cfg.takeProfitPercent →
          d.rulesTriggers = ["TAKE_PROFIT"]) ∧
        d ∈ checkExitConditions cfg now portfolio) ∧
    (¬(position.unrealizedPnLPercent ≤ -cfg.stopLossPercent ∨
        position.unrealizedPnLPercent ≥ cfg.takeProfitPercent) →
      exitDecisionFor cfg now position = none) ∧
    (checkExitConditions cfg now portfolio).length =
      (portfolio.positions.filter fun q =>
        q.unrealizedPnLPercent ≤ -cfg.stopLossPercent ∨
          q.unrealizedPnLPercent ≥ cfg.takeProfitPercent).length := by
  obtain ⟨hSL, hSLTP⟩ := hv
  have hTP : 0 < cfg.takeProfitPercent := lt_trans hSL hSLTP
  refine ⟨?_, ?_, ?_⟩
  · intro hbound
    have hsome : exitDecisionFor cfg now position =
        some { tokenAddress := position.tokenAddress
               tokenSymbol := position.tokenSymbol
               action := DecisionAction.SELL
               confidence := ConfidenceLevel.VERY_HIGH
               confidenceScore := 1
               suggestedPositionPercent := 100
               reasoning := [if position.unrealizedPnLPercent < 0 then
                 "Stop loss triggered" else "Take profit triggered"]
               rulesTriggers := [if position.unrealizedPnLPercent < 0 then
                 "STOP_LOSS" else "TAKE_PROFIT"]
               timestamp := now
               priority := Priority.URGENT } := by
      unfold exitDecisionFor
      dsimp only
      rw [if_pos hbound]
    refine ⟨_, hsome, rfl, rfl, rfl, rfl, rfl, ?_, ?_, ?_⟩
    · intro hsl
      have hneg : position.unrealizedPnLPercent < 0 := by linarith
      simp [hneg]
    · intro htp
      have hpos : ¬ position.unrealizedPnLPercent < 0 := by push_neg; linarith
      simp [hpos]
    · exact List.mem_filterMap.mpr ⟨position, hmem, hsome⟩
  · intro hbound
    unfold exitDecisionFor
    dsimp only
    rw [if_neg hbound]
  · exact length_filterMap_eq_length_filter _ _
      (fun a => exitDecisionFor_isSome cfg now a) portfolio.positions

theorem checkExitConditions_spec_witness :
    cfgRisk.valid ∧ positionStopLoss ∈ portfolioOnePos.positions ∧
    (checkExitConditions cfgRisk 0 portfolioOnePos).length =
      (portfolioOnePos.positions.filter fun q =>
        q.unrealizedPnLPercent ≤ -cfgRisk.stopLossPercent ∨
          q.unrealizedPnLPercent ≥ cfgRisk.takeProfitPercent).length :=
  ⟨by constructor <;> norm_num [cfgRisk], by decide,
    (checkExitConditions_spec cfgRisk 0 portfolioOnePos positionStopLoss
      ⟨by norm_num [cfgRisk], by norm_num [cfgRisk]⟩ (by decide)).2.2⟩

/-- Claim C5: `calculatePositionSize` returns
percent = max(0, min(halfKelly·100, assessment cap, configured cap)) with
winProbability p = 0.5 + confidence·0.3, payoff ratio b = takeProfit/stopLoss
and kelly = max(0, (b·p − (1−p))/b), and amountUSD = totalValueUSD·percent/100;
in the scenario stopLoss=10, takeProfit=20, confidence=0.8 the half-Kelly
percent is 30.5. -/
theorem calculatePositionSize_spec (cfg : RiskConfig) (confidence : ℚ)
    (portfolio : Portfolio) (a : RiskAssessment) :
    ((calculatePositionSize cfg confidence portfolio a).1 =
      max 0 (min (min
        ((max 0 ((cfg.takeProfitPercent / cfg.stopLossPercent * (0.5 + confidence * 0.3) -
            (1 - (0.5 + confidence * 0.3))) /
          (cfg.takeProfitPercent / cfg.stopLossPercent))) / 2 * 100)
        a.maxPositionSizePercent) cfg.maxPositionSizePercent)) ∧
    ((calculatePositionSize cfg confidence portfolio a).2 =
      portfolio.totalValueUSD * (calculatePositionSize cfg confidence portfolio a).1 / 100) ∧
    (cfg.stopLossPercent = 10 → cfg.takeProfitPercent = 20 → confidence = 0.8 →
      (calculatePositionSize cfg confidence portfolio a).1 =
        max 0 (min (min 30.5 a.maxPositionSizePercent) cfg.maxPositionSizePercent)) := by
  have h100 : (100 : ℚ) ≠ 0 := by norm_num
  have hb : cfg.takeProfitPercent / 100 / (cfg.stopLossPercent / 100) =
      cfg.takeProfitPercent / cfg.stopLossPercent :=
    div_div_div_cancel_right₀ h100 _ _
  refine ⟨?_, rfl, ?_⟩
  · unfold calculatePositionSize
    dsimp only
    rw [hb]
  · intro hsl htp hconf
    unfold calculatePositionSize
    dsimp only
    rw [hb, hsl, htp, hconf]
    norm_num

theorem calculatePositionSize_spec_witness :
    cfgRisk.stopLossPercent = 10 ∧ cfgRisk.takeProfitPercent = 20 ∧
    (calculatePositionSize cfgRisk 0.8 portfolioOnePos assessmentFix).1 =
      max 0 (min (min 30.5 assessmentFix.maxPositionSizePercent)
        cfgRisk.maxPositionSizePercent) :=
  ⟨rfl, rfl,
    (calculatePositionSize_spec cfgRisk 0.8 portfolioOnePos assessmentFix).2.2 rfl rfl rfl⟩

theorem assessRisk_canTrade_eq (cfg : RiskConfig) (action : DecisionAction)
    (d : OnChainData) (p : Portfolio) :
    (assessRisk cfg action d p).canTrade =
      ((assessRisk cfg action d p).blockers.length == 0) := rfl

theorem canTrade_false_of_mem (cfg : RiskConfig) (action : DecisionAction)
    (d : OnChainData) (p : Portfolio) (b : Blocker)
    (h : b ∈ (assessRisk cfg action d p).blockers) :
    (assessRisk cfg action d p).canTrade = false := by
  rw [assessRisk_canTrade_eq]
  have : (assessRisk cfg action d p).blockers ≠ [] := List.ne_nil_of_mem h
  simp [List.length_eq_zero, this]

/-- Claim C6: with the portfolio at (or beyond) its position limit, a BUY
assessment for an asset without an existing position cannot trade and
carries the max-positions blocker; with an existing position in that
asset, the max-positions blocker is not added. -/
theorem assessRisk_maxPositions_spec (cfg : RiskConfig) (d : OnChainData)
    (p : Portfolio) (hlen : p.positions.length ≥ p.maxPositions) :
    ((∀ q ∈ p.positions, q.tokenAddress ≠ d.tokenAddress) →
      Blocker.maxPositionsReached ∈ (assessRisk cfg DecisionAction.BUY d p).blockers ∧
      (assessRisk cfg DecisionAction.BUY d p).canTrade = false) ∧
    ((∃ q ∈ p.positions, q.tokenAddress = d.tokenAddress) →
      Blocker.maxPositionsReached ∉ (assessRisk cfg DecisionAction.BUY d p).blockers) := by
  constructor
  · intro hnone
    have hfind : p.positions.find? (fun q => q.tokenAddress = d.tokenAddress) = none := by
      rw [List.find?_eq_none]
      intro x hx
      simpa using hnone x hx
    have hmem : Blocker.maxPositionsReached ∈ (assessRisk cfg DecisionAction.BUY d p).blockers := by
      unfold assessRisk
      dsimp only
      rw [hfind]
      simp only [List.mem_append]
      split_ifs <;> simp_all
    exact ⟨hmem, canTrade_false_of_mem cfg DecisionAction.BUY d p _ hmem⟩
  · intro hsome
    have hfind : (p.positions.find? (fun q => q.tokenAddress = d.tokenAddress)).isSome := by
      rw [List.find?_isSome]
      obtain ⟨q, hq, hqa⟩ := hsome
      exact ⟨q, hq, by simpa using hqa⟩
    intro hmem
    unfold assessRisk at hmem
    dsimp only at hmem
    simp only [List.mem_append] at hmem
    rcases hfind_eq : p.positions.find? (fun q => q.tokenAddress = d.tokenAddress) with _ | q
    · rw [hfind_eq] at hfind; simp at hfind
    · rw [hfind_eq] at hmem
      split_ifs at hmem <;> simp_all

/-- Claim C7: a BUY assessment on a snapshot whose liquidity is below the
configured floor carries the liquidity blocker (hence cannot trade) and a
risk score of at least 0.3; the clamped risk score always stays within
[0, 1]. -/
theorem assessRisk_liquidity_spec (cfg : RiskConfig) (d : OnChainData) (p : Portfolio)
    (h : d.liquidityUSD < cfg.minLiquidityUSD) :
    Blocker.insufficientLiquidity ∈ (assessRisk cfg DecisionAction.BUY d p).blockers ∧
    (assessRisk cfg DecisionAction.BUY d p).canTrade = false ∧
    0.3 ≤ (assessRisk cfg DecisionAction.BUY d p).riskScore ∧
    (∀ action d2 p2, 0 ≤ (assessRisk cfg action d2 p2).riskScore ∧
      (assessRisk cfg action d2 p2).riskScore ≤ 1) := by
  have hbound : ∀ action d2 p2, 0 ≤ (assessRisk cfg action d2 p2).riskScore ∧
      (assessRisk cfg action d2 p2).riskScore ≤ 1 := by
    intro action d2 p2
    unfold assessRisk
    dsimp only
    refine ⟨le_min (by norm_num) ?_, min_le_left _ _⟩
    have hconc : (0 : ℚ) ≤ (if d2.top10HoldersPercent > 80 then 0.3
        else if d2.top10HoldersPercent > 60 then 0.15 else 0) := by
      split_ifs <;> norm_num
    have hliq : (0 : ℚ) ≤ (if d2.liquidityUSD < cfg.minLiquidityUSD then 0.3 else 0) := by
      split_ifs <;> norm_num
    have hbuy : (0 : ℚ) ≤ (if action = DecisionAction.BUY then
        (if ((if d2.sellCount24h > 0 then d2.buyCount24h / d2.sellCount24h
            else d2.buyCount24h) : ℚ) < 0.5 then 0.1 else 0) +
        (if d2.priceChange24h > 100 then 0.2 else 0) +
        (if d2.volumeChange24h > 500 then 0.1 else 0)
       else 0) := by
      split_ifs <;> norm_num
    linarith
  have hmem : Blocker.insufficientLiquidity ∈ (assessRisk cfg DecisionAction.BUY d p).blockers := by
    clear hbound
    unfold assessRisk
    dsimp only
    rw [if_pos h]
    simp only [List.mem_append]
    split_ifs <;> simp_all
  have hscore : 0.3 ≤ (assessRisk cfg DecisionAction.BUY d p).riskScore := by
    clear hmem hbound
    unfold assessRisk
    dsimp only
    rw [if_pos h]
    refine le_min (by norm_num) ?_
    split_ifs <;> norm_num
  exact ⟨hmem, canTrade_false_of_mem cfg DecisionAction.BUY d p _ hmem, hscore, hbound⟩

theorem assessRisk_liquidity_spec_witness :
    onChainLowLiq.liquidityUSD < cfgRisk.minLiquidityUSD ∧
    Blocker.insufficientLiquidity ∈
      (assessRisk cfgRisk DecisionAction.BUY onChainLowLiq portfolioOnePos).blockers ∧
    (assessRisk cfgRisk DecisionAction.BUY onChainLowLiq portfolioOnePos).canTrade = false ∧
    0.3 ≤ (assessRisk cfgRisk DecisionAction.BUY onChainLowLiq portfolioOnePos).riskScore :=
  ⟨by norm_num [onChainLowLiq, cfgRisk],
    (assessRisk_liquidity_spec cfgRisk onChainLowLiq portfolioOnePos
      (by norm_num [onChainLowLiq, cfgRisk])).1,
    (assessRisk_liquidity_spec cfgRisk onChainLowLiq portfolioOnePos
      (by norm_num [onChainLowLiq, cfgRisk])).2.1,
    (assessRisk_liquidity_spec cfgRisk onChainLowLiq portfolioOnePos
      (by norm_num [onChainLowLiq, cfgRisk])).2.2.1⟩

theorem assessRisk_maxPositions_spec_witness :
    portfolioOnePos.positions.length ≥ portfolioOnePos.maxPositions ∧
    (∀ q ∈ portfolioOnePos.positions, q.tokenAddress ≠ onChainLowLiq.tokenAddress) ∧
    Blocker.maxPositionsReached ∈
      (assessRisk cfgRisk DecisionAction.BUY onChainLowLiq portfolioOnePos).blockers ∧
    (assessRisk cfgRisk DecisionAction.BUY onChainLowLiq portfolioOnePos).canTrade = false :=
  ⟨by decide, by decide,
    ((assessRisk_maxPositions_spec cfgRisk onChainLowLiq portfolioOnePos (by decide)).1
      (by decide)).1,
    ((assessRisk_maxPositions_spec cfgRisk onChainLowLiq portfolioOnePos (by decide)).1
      (by decide)).2⟩

/-! ## Retry-loop lemmas (sendAndConfirmTransaction) -/

theorem sendGo_attempts_le (d maxR : ℕ) (outcomes : ℕ → AttemptOutcome) :
    ∀ remaining attempt lastErr, attempt + remaining = maxR + 1 →
      (sendGo d maxR outcomes attempt remaining lastErr).attemptsUsed ≤ maxR := by
  intro remaining
  induction remaining with
  | zero =>
    intro attempt lastErr hinv
    simp only [sendGo]
    omega
  | succ n ih =>
    intro attempt lastErr hinv
    rcases houtc : outcomes attempt with sig | m | m <;>
      simp only [sendGo, houtc] <;>
      first
        | omega
        | exact ih (attempt + 1) _ (by omega)

theorem sendGo_attempts_lb (d maxR : ℕ) (outcomes : ℕ → AttemptOutcome) :
    ∀ n attempt lastErr,
      attempt ≤ (sendGo d maxR outcomes attempt (n + 1) lastErr).attemptsUsed := by
  intro n
  induction n with
  | zero =>
    intro attempt lastErr
    rcases houtc : outcomes attempt with sig | m | m <;>
      simp only [sendGo, houtc] <;> omega
  | succ n ih =>
    intro attempt lastErr
    rcases houtc : outcomes attempt with sig | m | m <;>
      simp only [sendGo, houtc]
    · omega
    · exact le_trans (by omega) (ih (attempt + 1) (some (failMsg (outcomes attempt))))
    · exact le_trans (by omega) (ih (attempt + 1) (some (failMsg (outcomes attempt))))

theorem sendGo_delays (d maxR : ℕ) (outcomes : ℕ → AttemptOutcome) :
    ∀ remaining attempt lastErr, attempt + remaining = maxR + 1 → 1 ≤ attempt →
      (sendGo d maxR outcomes attempt remaining lastErr).delaysMs =
        (List.range ((sendGo d maxR outcomes attempt remaining lastErr).attemptsUsed - attempt)).map
          (fun i => d * (attempt + i)) := by
  intro remaining
  induction remaining with
  | zero =>
    intro attempt lastErr hinv h1
    simp only [sendGo]
    have hz : attempt - 1 - attempt = 0 := by omega
    rw [hz]
    rfl
  | succ n ih =>
    intro attempt lastErr hinv h1
    rcases houtc : outcomes attempt with sig | m | m
    · simp only [sendGo, houtc]
      have hz : attempt - attempt = 0 := by omega
      rw [hz]
      rfl
    all_goals
      simp only [sendGo, houtc]
      rcases n with _ | n2
      · have hlt : ¬ attempt < maxR := by omega
        rw [if_neg hlt]
        simp only [sendGo]
        have hz : attempt + 1 - 1 - attempt = 0 := by omega
        rw [hz]
        rfl
      · have hused := sendGo_attempts_lb d maxR outcomes n2 (attempt + 1)
          (some (failMsg (outcomes attempt)))
        have hlt : attempt < maxR := by omega
        rw [if_pos hlt, ih (attempt + 1) _ (by omega) (by omega)]
        have hk : (sendGo d maxR outcomes (attempt + 1) (n2 + 1)
            (some (failMsg (outcomes attempt)))).attemptsUsed - attempt =
          ((sendGo d maxR outcomes (attempt + 1) (n2 + 1)
            (some (failMsg (outcomes attempt)))).attemptsUsed - (attempt + 1)) + 1 := by
          omega
        rw [houtc] at hk
        rw [hk, List.range_succ_eq_map]
        simp only [List.map_cons, List.map_map, List.singleton_append, Nat.add_zero]
        refine congrArg₂ List.cons rfl ?_
        refine List.map_congr_left ?_
        intro i _
        simp only [Function.comp_apply, Nat.succ_eq_add_one]
        ring

theorem sendGo_success (d maxR : ℕ) (outcomes : ℕ → AttemptOutcome) :
    ∀ n attempt lastErr k sig, attempt + n = maxR + 1 →
      attempt ≤ k → k ≤ maxR →
      (∀ j, attempt ≤ j → j < k → (outcomes j).isFailure) →
      outcomes k = AttemptOutcome.success sig →
      (sendGo d maxR outcomes attempt n lastErr).outcome = Except.ok sig ∧
      (sendGo d maxR outcomes attempt n lastErr).attemptsUsed = k := by
  intro n
  induction n with
  | zero =>
    intro attempt lastErr k sig hinv hak hkm hfail hsucc
    exact absurd hinv (by omega)
  | succ n ih =>
    intro attempt lastErr k sig hinv hak hkm hfail hsucc
    by_cases hek : attempt = k
    · subst hek
      refine ⟨?_, ?_⟩ <;> simp [sendGo, hsucc]
    · have hlt : attempt < k := by omega
      have hf := hfail attempt (le_refl _) hlt
      rcases houtc : outcomes attempt with sig2 | m | m
      · rw [houtc] at hf
        exact absurd hf (by simp [AttemptOutcome.isFailure])
      all_goals
        simp only [sendGo, houtc]
        exact ih (attempt + 1) _ k sig (by omega) (by omega) hkm
          (fun j hj1 hj2 => hfail j (by omega) hj2) hsucc

theorem sendGo_exhaust (d maxR : ℕ) (outcomes : ℕ → AttemptOutcome) :
    ∀ n attempt lastErr, attempt + n = maxR + 1 → attempt ≤ maxR →
      (∀ j, attempt ≤ j → j ≤ maxR → (outcomes j).isFailure) →
      (sendGo d maxR outcomes attempt n lastErr).outcome =
        Except.error (failMsg (outcomes maxR)) := by
  intro n
  induction n with
  | zero =>
    intro attempt lastErr hinv ham hfail
    exact absurd hinv (by omega)
  | succ n ih =>
    intro attempt lastErr hinv ham hfail
    have hf := hfail attempt (le_refl _) ham
    rcases houtc : outcomes attempt with sig | m | m
    · rw [houtc] at hf
      exact absurd hf (by simp [AttemptOutcome.isFailure])
    all_goals
      simp only [sendGo, houtc]
      rcases n with _ | n2
      · have hattempt : attempt = maxR := by omega
        simp only [sendGo]
        subst hattempt
        rw [houtc]
        rfl
      · exact ih (attempt + 1) _ (by omega) (by omega)
          (fun j hj1 hj2 => hfail j (by omega) hj2)

/-- Claim C3: broadcast+confirm attempts never exceed the configured
maximum, the backoff before attempt n+1 is n times the configured base
delay, a success short-circuits the remaining attempts, and exhausting
every attempt yields exactly one failed result carrying the last error. -/
theorem sendAndConfirm_retry_policy (cfg : TradingConfig)
    (outcomes : ℕ → AttemptOutcome) :
    (sendAndConfirmTransaction cfg outcomes).attemptsUsed ≤ cfg.maxRetries ∧
    (sendAndConfirmTransaction cfg outcomes).delaysMs =
      (List.range ((sendAndConfirmTransaction cfg outcomes).attemptsUsed - 1)).map
        (fun i => cfg.retryDelayMs * (1 + i)) ∧
    (∀ k sig, 1 ≤ k → k ≤ cfg.maxRetries →
      (∀ j, 1 ≤ j → j < k → (outcomes j).isFailure) →
      outcomes k = AttemptOutcome.success sig →
      (sendAndConfirmTransaction cfg outcomes).outcome = Except.ok sig ∧
      (sendAndConfirmTransaction cfg outcomes).attemptsUsed = k) ∧
    (1 ≤ cfg.maxRetries →
      (∀ j, 1 ≤ j → j ≤ cfg.maxRetries → (outcomes j).isFailure) →
      (sendAndConfirmTransaction cfg outcomes).outcome =
        Except.error (failMsg (outcomes cfg.maxRetries)) ∧
      executeSwap cfg outcomes =
        { success := false, signature := none
          error := some (failMsg (outcomes cfg.maxRetries)) }) := by
  refine ⟨?_, ?_, ?_, ?_⟩
  · exact sendGo_attempts_le _ _ outcomes cfg.maxRetries 1 none (by omega)
  · exact sendGo_delays cfg.retryDelayMs cfg.maxRetries outcomes cfg.maxRetries 1 none
      (by omega) (le_refl 1)
  · intro k sig h1 h2 hfail hsucc
    exact sendGo_success cfg.retryDelayMs cfg.maxRetries outcomes cfg.maxRetries 1 none k sig
      (by omega) h1 h2 hfail hsucc
  · intro hmr hfail
    have hout : (sendAndConfirmTransaction cfg outcomes).outcome =
        Except.error (failMsg (outcomes cfg.maxRetries)) :=
      sendGo_exhaust cfg.retryDelayMs cfg.maxRetries outcomes cfg.maxRetries 1 none
        (by omega) hmr hfail
    refine ⟨hout, ?_⟩
    unfold executeSwap
    rw [hout]

theorem sendAndConfirm_retry_policy_witness :
    (sendAndConfirmTransaction DEFAULT_CONFIG traceTwoFailsThenSuccess).outcome =
      Except.ok "sig3" ∧
    (sendAndConfirmTransaction DEFAULT_CONFIG traceTwoFailsThenSuccess).attemptsUsed = 3 :=
  (sendAndConfirm_retry_policy DEFAULT_CONFIG traceTwoFailsThenSuccess).2.2.1 3 "sig3"
    (by decide) (by decide)
    (by
      intro j hj1 hj2
      interval_cases j <;> decide)
    (by decide)

theorem sendGo_attempts_lb_of_failures (d maxR : ℕ) (outcomes : ℕ → AttemptOutcome) :
    ∀ n attempt lastErr k, attempt + n = maxR + 1 → attempt ≤ k + 1 → k < maxR →
      (∀ j, attempt ≤ j → j ≤ k → (outcomes j).isFailure) →
      k + 1 ≤ (sendGo d maxR outcomes attempt n lastErr).attemptsUsed := by
  intro n
  induction n with
  | zero =>
    intro attempt lastErr k hinv hak hkm hfail
    exact absurd hinv (by omega)
  | succ n ih =>
    intro attempt lastErr k hinv hak hkm hfail
    by_cases hek : attempt = k + 1
    · subst hek
      exact sendGo_attempts_lb d maxR outcomes n (k + 1) lastErr
    · have hle : attempt ≤ k := by omega
      have hf := hfail attempt (le_refl _) hle
      rcases houtc : outcomes attempt with sig | m | m
      · rw [houtc] at hf
        exact absurd hf (by simp [AttemptOutcome.isFailure])
      all_goals
        simp only [sendGo, houtc]
        exact ih (attempt + 1) _ k (by omega) (by omega) hkm
          (fun j hj1 hj2 => hfail j (by omega) hj2)

/-- Claim C2 counterexample: with the default configuration, an on-chain
program-level rejection reported by the confirmation of attempt 1 is
retried — attempt 2 runs and its success makes the whole order succeed,
so the rejection was neither terminal nor surfaced as a failed result. -/
theorem onChainRejection_retried_counterexample :
    traceRejectionThenSuccess 1 = AttemptOutcome.onChainRejection "InstructionError" ∧
    (sendAndConfirmTransaction DEFAULT_CONFIG traceRejectionThenSuccess).attemptsUsed = 2 ∧
    (sendAndConfirmTransaction DEFAULT_CONFIG traceRejectionThenSuccess).outcome =
      Except.ok "sig2" ∧
    (executeSwap DEFAULT_CONFIG traceRejectionThenSuccess).success = true :=
  ⟨rfl, rfl, rfl, rfl⟩

/-- Claim C2 (amended): an on-chain program-level rejection reported by
the confirmation is caught and retried exactly like a transient
network/broadcast failure — after a rejection on attempt k < maxRetries
(all attempts so far having failed) attempt k+1 still runs; only when
every attempt fails does the order yield a single failed TradeResult
carrying the last error. -/
theorem onChainRejection_retried (cfg : TradingConfig) (outcomes : ℕ → AttemptOutcome)
    (k : ℕ) (m : String) (h1 : 1 ≤ k) (h2 : k < cfg.maxRetries)
    (hrej : outcomes k = AttemptOutcome.onChainRejection m)
    (hfail : ∀ j, 1 ≤ j → j ≤ k → (outcomes j).isFailure) :
    k + 1 ≤ (sendAndConfirmTransaction cfg outcomes).attemptsUsed ∧
    ((∀ j, 1 ≤ j → j ≤ cfg.maxRetries → (outcomes j).isFailure) →
      (executeSwap cfg outcomes).success = false ∧
      (executeSwap cfg outcomes).error = some (failMsg (outcomes cfg.maxRetries))) := by
  constructor
  · exact sendGo_attempts_lb_of_failures cfg.retryDelayMs cfg.maxRetries outcomes
      cfg.maxRetries 1 none k (by omega) (by omega) h2 hfail
  · intro hfailAll
    have hout : (sendAndConfirmTransaction cfg outcomes).outcome =
        Except.error (failMsg (outcomes cfg.maxRetries)) :=
      sendGo_exhaust cfg.retryDelayMs cfg.maxRetries outcomes cfg.maxRetries 1 none
        (by omega) (by omega) hfailAll
    unfold executeSwap
    rw [hout]
    exact ⟨rfl, rfl⟩

theorem onChainRejection_retried_witness :
    1 + 1 ≤ (sendAndConfirmTransaction DEFAULT_CONFIG traceRejectionThenSuccess).attemptsUsed :=
  (onChainRejection_retried DEFAULT_CONFIG traceRejectionThenSuccess 1 "InstructionError"
    (by decide) (by decide) (by decide)
    (by
      intro j hj1 hj2
      interval_cases j <;> decide)).1

/-! ## Quote slippage (getQuote) -/

/-- Claim C9 counterexample: a provided slippage of 0 bps is falsy in JS,
so `getQuote` substitutes the configured default (50 bps) instead of the
provided 0 — differing from the claimed "slippageBps if provided else the
default" reading. -/
theorem effectiveSlippage_counterexample :
    effectiveSlippage DEFAULT_CONFIG (some 0) = 50 ∧
    effectiveSlippageSpec DEFAULT_CONFIG (some 0) = 0 ∧
    effectiveSlippage DEFAULT_CONFIG (some 0) ≠
      effectiveSlippageSpec DEFAULT_CONFIG (some 0) := by
  refine ⟨rfl, rfl, ?_⟩
  decide

/-- Claim C9 (amended): the slippage `getQuote` sends equals
min(params.slippageBps if provided and nonzero else the configured
default, the configured maxSlippageBps); in particular it never exceeds
the configured maximum. -/
theorem effectiveSlippage_spec (cfg : TradingConfig) (s : Option ℕ) :
    effectiveSlippage cfg s ≤ cfg.maxSlippageBps ∧
    (∀ v, s = some v → v ≠ 0 →
      effectiveSlippage cfg s = min v cfg.maxSlippageBps) ∧
    (s = none ∨ s = some 0 →
      effectiveSlippage cfg s = min cfg.defaultSlippageBps cfg.maxSlippageBps) := by
  refine ⟨min_le_right _ _, ?_, ?_⟩
  · intro v hv hv0
    subst hv
    simp [effectiveSlippage, hv0]
  · rintro (hs | hs) <;> subst hs <;> rfl

theorem effectiveSlippage_spec_witness :
    effectiveSlippage DEFAULT_CONFIG (some 700) = min 700 DEFAULT_CONFIG.maxSlippageBps :=
  (effectiveSlippage_spec DEFAULT_CONFIG (some 700)).2.1 700 rfl (by decide)

/-! ## AMM price-impact bounds -/

/-- Claim C10: for positive amounts and reserves, the constant-product
output with the 0.25% fee is strictly below the output reserve, the
clamped price impact is non-negative, and the output equals
amountIn·9975·reserveOut / (reserveIn·10000 + amountIn·9975) in exact
integer arithmetic. -/
theorem calculatePriceImpact_spec (amountIn reserveIn reserveOut : ℕ)
    (h1 : 0 < amountIn) (h2 : 0 < reserveIn) (h3 : 0 < reserveOut) :
    (calculatePriceImpact amountIn reserveIn reserveOut).amountOut < reserveOut ∧
    0 ≤ (calculatePriceImpact amountIn reserveIn reserveOut).priceImpact ∧
    (calculatePriceImpact amountIn reserveIn reserveOut).amountOut =
      amountIn * 9975 * reserveOut / (reserveIn * 10000 + amountIn * 9975) := by
  refine ⟨?_, le_max_left _ _, rfl⟩
  show amountIn * 9975 * reserveOut / (reserveIn * 10000 + amountIn * 9975) < reserveOut
  have hden : 0 < reserveIn * 10000 + amountIn * 9975 := by positivity
  rw [Nat.div_lt_iff_lt_mul hden]
  have hsplit : reserveOut * (reserveIn * 10000 + amountIn * 9975) =
      reserveOut * (reserveIn * 10000) + amountIn * 9975 * reserveOut := by ring
  rw [hsplit]
  have hpos : 0 < reserveOut * (reserveIn * 10000) := by positivity
  linarith

theorem calculatePriceImpact_spec_witness :
    (calculatePriceImpact 1 1 2).amountOut < 2 ∧
    0 ≤ (calculatePriceImpact 1 1 2).priceImpact ∧
    (calculatePriceImpact 1 1 2).amountOut = 1 * 9975 * 2 / (1 * 10000 + 1 * 9975) :=
  calculatePriceImpact_spec 1 1 2 (by decide) (by decide) (by decide)

end SmallcapTrader
